import Mathlib

/-!
Verification of bevy_streaming against its specification.

The definitions below are a shallow embedding of the repository's Rust
sources.  Bytes are modelled as `Nat` (values `0..255`), byte buffers as
`List Nat`, fallible decoding as `Except String`, and signed 16-bit wire
fields as `Int` obtained from the two little-endian bytes.
-/

/-! ## Control-channel protocol decoder (src/ue_pixelstreaming/message.rs)

`Cursor`/`byteorder` reads: `read_u8` consumes one byte, `read_u16` /
`read_i16` with `LittleEndian` consume two.  A read past the end of the
buffer is an `UnexpectedEof` io error, which `?` turns into a decode
error of the surrounding `try_from`.
-/

def readU8 : List Nat → Except String (Nat × List Nat)
  | [] => .error "failed to fill whole buffer"
  | b :: rest => .ok (b, rest)

def readU16LE : List Nat → Except String (Nat × List Nat)
  | b0 :: b1 :: rest => .ok (b0 + 256 * b1, rest)
  | _ => .error "failed to fill whole buffer"

/-- Reinterpret an unsigned 16-bit value as the signed 16-bit value with
the same bit pattern (two's complement). -/
def toI16 (n : Nat) : Int :=
  if n < 32768 then (n : Int) else (n : Int) - 65536

def readI16LE (bs : List Nat) : Except String (Int × List Nat) := do
  let (n, rest) ← readU16LE bs
  return (toI16 n, rest)

/-- UTF-8 validation and decoding of a byte sequence into code points,
as performed by Rust's `read_to_string` (strict: rejects overlong forms,
surrogates and code points above `0x10FFFF`). -/
def utf8Decode : List Nat → Option (List Nat)
  | [] => some []
  | b0 :: rest =>
    if b0 < 0x80 then
      (utf8Decode rest).map (b0 :: ·)
    else if b0 < 0xC2 then
      none
    else if b0 ≤ 0xDF then
      match rest with
      | b1 :: rest2 =>
        if 0x80 ≤ b1 ∧ b1 ≤ 0xBF then
          (utf8Decode rest2).map (((b0 - 0xC0) * 64 + (b1 - 0x80)) :: ·)
        else none
      | [] => none
    else if b0 ≤ 0xEF then
      match rest with
      | b1 :: b2 :: rest3 =>
        let lo1 := if b0 = 0xE0 then 0xA0 else 0x80
        let hi1 := if b0 = 0xED then 0x9F else 0xBF
        if lo1 ≤ b1 ∧ b1 ≤ hi1 ∧ 0x80 ≤ b2 ∧ b2 ≤ 0xBF then
          (utf8Decode rest3).map
            (((b0 - 0xE0) * 4096 + (b1 - 0x80) * 64 + (b2 - 0x80)) :: ·)
        else none
      | _ => none
    else if b0 ≤ 0xF4 then
      match rest with
      | b1 :: b2 :: b3 :: rest4 =>
        let lo1 := if b0 = 0xF0 then 0x90 else 0x80
        let hi1 := if b0 = 0xF4 then 0x8F else 0xBF
        if lo1 ≤ b1 ∧ b1 ≤ hi1 ∧ 0x80 ≤ b2 ∧ b2 ≤ 0xBF ∧ 0x80 ≤ b3 ∧ b3 ≤ 0xBF then
          (utf8Decode rest4).map
            (((b0 - 0xF0) * 262144 + (b1 - 0x80) * 4096 + (b2 - 0x80) * 64
              + (b3 - 0x80)) :: ·)
        else none
      | _ => none
    else none
termination_by l => l.length
decreasing_by all_goals simp_all <;> omega

structure UiInteraction where
  message : List Nat
deriving DecidableEq

structure Command where
  command : List Nat
deriving DecidableEq

structure KeyDown where
  key_code : Nat
  is_repeat : Nat
deriving DecidableEq

structure KeyUp where
  key_code : Nat
deriving DecidableEq

structure KeyPress where
  char_code : Nat
deriving DecidableEq

structure MouseMove where
  x : Nat
  y : Nat
  delta_x : Int
  delta_y : Int
deriving DecidableEq

structure MouseDown where
  button : Nat
  x : Nat
  y : Nat
deriving DecidableEq

structure MouseUp where
  button : Nat
  x : Nat
  y : Nat
deriving DecidableEq

structure MouseWheel where
  delta : Int
  x : Nat
  y : Nat
deriving DecidableEq

structure MouseDouble where
  button : Nat
  x : Nat
  y : Nat
deriving DecidableEq

def UiInteraction.try_from (value : List Nat) : Except String UiInteraction :=
  match utf8Decode value with
  | some cps => .ok ⟨cps⟩
  | none => .error "stream did not contain valid UTF-8"

def Command.try_from (value : List Nat) : Except String Command :=
  match utf8Decode value with
  | some cps => .ok ⟨cps⟩
  | none => .error "stream did not contain valid UTF-8"

def KeyDown.try_from (value : List Nat) : Except String KeyDown := do
  let (key_code, rest) ← readU8 value
  let (is_repeat, _) ← readU8 rest
  return ⟨key_code, is_repeat⟩

def KeyUp.try_from (value : List Nat) : Except String KeyUp := do
  let (key_code, _) ← readU8 value
  return ⟨key_code⟩

def KeyPress.try_from (value : List Nat) : Except String KeyPress := do
  let (char_code, _) ← readU16LE value
  return ⟨char_code⟩

def MouseMove.try_from (value : List Nat) : Except String MouseMove := do
  let (x, r1) ← readU16LE value
  let (y, r2) ← readU16LE r1
  let (delta_x, r3) ← readI16LE r2
  let (delta_y, _) ← readI16LE r3
  return ⟨x, y, delta_x, delta_y⟩

def MouseDown.try_from (value : List Nat) : Except String MouseDown := do
  let (button, r1) ← readU8 value
  let (x, r2) ← readU16LE r1
  let (y, _) ← readU16LE r2
  return ⟨button, x, y⟩

def MouseUp.try_from (value : List Nat) : Except String MouseUp := do
  let (button, r1) ← readU8 value
  let (x, r2) ← readU16LE r1
  let (y, _) ← readU16LE r2
  return ⟨button, x, y⟩

def MouseWheel.try_from (value : List Nat) : Except String MouseWheel := do
  let (delta, r1) ← readI16LE value
  let (x, r2) ← readU16LE r1
  let (y, _) ← readU16LE r2
  return ⟨delta, x, y⟩

def MouseDouble.try_from (value : List Nat) : Except String MouseDouble := do
  let (button, r1) ← readU8 value
  let (x, r2) ← readU16LE r1
  let (y, _) ← readU16LE r2
  return ⟨button, x, y⟩

inductive UeMessage
  | uiInteraction (m : UiInteraction)
  | command (c : Command)
  | keyDown (k : KeyDown)
  | keyUp (k : KeyUp)
  | keyPress (k : KeyPress)
  | mouseEnter
  | mouseLeave
  | mouseDown (m : MouseDown)
  | mouseUp (m : MouseUp)
  | mouseMove (m : MouseMove)
  | mouseWheel (m : MouseWheel)
  | mouseDouble (m : MouseDouble)
deriving DecidableEq

/-- `impl TryFrom<&[u8]> for UeMessage`: the first byte selects the
message type, the remaining bytes are the payload.  The Rust `match` on
the tag byte is rendered as the equivalent chain of equality tests. -/
def UeMessage.try_from (value : List Nat) : Except String UeMessage :=
  match value with
  | [] => .error "Invalid buffer for decoding UeMessage"
  | id :: data =>
    if id = 50 then (UiInteraction.try_from data).map .uiInteraction
    else if id = 51 then (Command.try_from data).map .command
    else if id = 60 then (KeyDown.try_from data).map .keyDown
    else if id = 61 then (KeyUp.try_from data).map .keyUp
    else if id = 62 then (KeyPress.try_from data).map .keyPress
    else if id = 70 then .ok .mouseEnter
    else if id = 71 then .ok .mouseLeave
    else if id = 72 then (MouseDown.try_from data).map .mouseDown
    else if id = 73 then (MouseUp.try_from data).map .mouseUp
    else if id = 74 then (MouseMove.try_from data).map .mouseMove
    else if id = 75 then (MouseWheel.try_from data).map .mouseWheel
    else if id = 76 then (MouseDouble.try_from data).map .mouseDouble
    else .error "Not supported message type"

def Except.isErr : Except ε α → Bool
  | .error _ => true
  | .ok _ => false

/-- The data-channel handler's `on-message-data` closure
(src/ue_pixelstreaming/handler.rs): each packet is decoded with
`UeMessage::try_from`; a successful decode is forwarded on the channel,
a failed one is logged and dropped, and the loop moves on to the next
packet either way. -/
def handlerProcess : List (List Nat) → List UeMessage
  | [] => []
  | pkt :: rest =>
    match UeMessage.try_from pkt with
    | .ok m => m :: handlerProcess rest
    | .error _ => handlerProcess rest

/-- C1: decoding `[60,65,0]` yields `KeyDown{key_code=65,is_repeat=0}`
and decoding `[75,0xF6,0xFF,50,0,60,0]` yields
`MouseWheel{delta=-10,x=50,y=60}`: byte 60 selects `KeyDown`, byte 75
selects `MouseWheel`, and the multi-byte fields are read
little-endian. -/
theorem ueMessage_decode_keydown_mousewheel :
    UeMessage.try_from [60, 65, 0] = .ok (.keyDown ⟨65, 0⟩) ∧
    UeMessage.try_from [75, 0xF6, 0xFF, 50, 0, 60, 0] =
      .ok (.mouseWheel ⟨-10, 50, 60⟩) := by
  constructor <;> rfl

/-- C2: the decoder returns an error (never panics) on an empty buffer,
on an unrecognized tag byte, and on a payload shorter than the tagged
message's fixed layout (KeyDown 2, KeyUp 1, KeyPress 2, MouseDown 5,
MouseUp 5, MouseMove 8, MouseWheel 6, MouseDouble 5 bytes); and the
data-channel handler drops the single erroneous packet while continuing
to decode the subsequent packets on the channel. -/
theorem ueMessage_decode_errors :
    (UeMessage.try_from []).isErr = true ∧
    (∀ b bs, b ∉ ([50, 51, 60, 61, 62, 70, 71, 72, 73, 74, 75, 76] : List Nat) →
      (UeMessage.try_from (b :: bs)).isErr = true) ∧
    (∀ bs, bs.length < 2 → (UeMessage.try_from (60 :: bs)).isErr = true) ∧
    (∀ bs, bs.length < 1 → (UeMessage.try_from (61 :: bs)).isErr = true) ∧
    (∀ bs, bs.length < 2 → (UeMessage.try_from (62 :: bs)).isErr = true) ∧
    (∀ bs, bs.length < 5 → (UeMessage.try_from (72 :: bs)).isErr = true) ∧
    (∀ bs, bs.length < 5 → (UeMessage.try_from (73 :: bs)).isErr = true) ∧
    (∀ bs, bs.length < 8 → (UeMessage.try_from (74 :: bs)).isErr = true) ∧
    (∀ bs, bs.length < 6 → (UeMessage.try_from (75 :: bs)).isErr = true) ∧
    (∀ bs, bs.length < 5 → (UeMessage.try_from (76 :: bs)).isErr = true) ∧
    (∀ pkt pkts, (UeMessage.try_from pkt).isErr = true →
      handlerProcess (pkt :: pkts) = handlerProcess pkts) := by
  refine ⟨rfl, ?_, ?_, ?_, ?_, ?_, ?_, ?_, ?_, ?_, ?_⟩
  · intro b bs hb
    simp only [List.mem_cons, List.not_mem_nil, or_false, not_or] at hb
    obtain ⟨h50, h51, h60, h61, h62, h70, h71, h72, h73, h74, h75, h76⟩ := hb
    simp [UeMessage.try_from, h50, h51, h60, h61, h62, h70, h71, h72, h73,
      h74, h75, h76, Except.isErr]
  · intro bs h
    rcases bs with _ | ⟨a, bs⟩
    · rfl
    rcases bs with _ | ⟨b, bs⟩
    · rfl
    · simp only [List.length_cons] at h; omega
  · intro bs h
    rcases bs with _ | ⟨a, bs⟩
    · rfl
    · simp only [List.length_cons] at h; omega
  · intro bs h
    rcases bs with _ | ⟨a, bs⟩
    · rfl
    rcases bs with _ | ⟨b, bs⟩
    · rfl
    · simp only [List.length_cons] at h; omega
  · intro bs h
    rcases bs with _ | ⟨a, bs⟩
    · rfl
    rcases bs with _ | ⟨b, bs⟩
    · rfl
    rcases bs with _ | ⟨c, bs⟩
    · rfl
    rcases bs with _ | ⟨d, bs⟩
    · rfl
    rcases bs with _ | ⟨e, bs⟩
    · rfl
    · simp only [List.length_cons] at h; omega
  · intro bs h
    rcases bs with _ | ⟨a, bs⟩
    · rfl
    rcases bs with _ | ⟨b, bs⟩
    · rfl
    rcases bs with _ | ⟨c, bs⟩
    · rfl
    rcases bs with _ | ⟨d, bs⟩
    · rfl
    rcases bs with _ | ⟨e, bs⟩
    · rfl
    · simp only [List.length_cons] at h; omega
  · intro bs h
    rcases bs with _ | ⟨a, bs⟩
    · rfl
    rcases bs with _ | ⟨b, bs⟩
    · rfl
    rcases bs with _ | ⟨c, bs⟩
    · rfl
    rcases bs with _ | ⟨d, bs⟩
    · rfl
    rcases bs with _ | ⟨e, bs⟩
    · rfl
    rcases bs with _ | ⟨f, bs⟩
    · rfl
    rcases bs with _ | ⟨g, bs⟩
    · rfl
    rcases bs with _ | ⟨i, bs⟩
    · rfl
    · simp only [List.length_cons] at h; omega
  · intro bs h
    rcases bs with _ | ⟨a, bs⟩
    · rfl
    rcases bs with _ | ⟨b, bs⟩
    · rfl
    rcases bs with _ | ⟨c, bs⟩
    · rfl
    rcases bs with _ | ⟨d, bs⟩
    · rfl
    rcases bs with _ | ⟨e, bs⟩
    · rfl
    rcases bs with _ | ⟨f, bs⟩
    · rfl
    · simp only [List.length_cons] at h; omega
  · intro bs h
    rcases bs with _ | ⟨a, bs⟩
    · rfl
    rcases bs with _ | ⟨b, bs⟩
    · rfl
    rcases bs with _ | ⟨c, bs⟩
    · rfl
    rcases bs with _ | ⟨d, bs⟩
    · rfl
    rcases bs with _ | ⟨e, bs⟩
    · rfl
    · simp only [List.length_cons] at h; omega
  · intro pkt pkts h
    cases e : UeMessage.try_from pkt with
    | ok m => rw [e] at h; simp [Except.isErr] at h
    | error s => simp [handlerProcess, e]

/-- Witness for C2 at concrete inputs: the empty buffer, the unknown tag
`[99]`, a truncated `KeyDown` packet `[60]`, and the handler dropping
the bad packet `[99]` while still decoding the following `[70]`. -/
theorem ueMessage_decode_errors_witness :
    (UeMessage.try_from []).isErr = true ∧
    (UeMessage.try_from [99]).isErr = true ∧
    (UeMessage.try_from [60]).isErr = true ∧
    handlerProcess [[99], [70]] = handlerProcess [[70]] := by
  obtain ⟨he, hu, h60, h61, h62, h72, h73, h74, h75, h76, hh⟩ :=
    ueMessage_decode_errors
  exact ⟨he, hu 99 [] (by decide), h60 [] (by decide), hh [99] [[70]] (by decide)⟩

/-! ## Signalling wire protocol (src/ue_pixelstreaming/signaller/protocol.rs)

The serde-tagged `Message` enum and its payload structs, embedded
one-to-one from protocol.rs.  `i32` wire fields are embedded as `Int`
(their wire values lie in the i32 range); everywhere the code's
behaviour depends on the i32 range — `u32::try_from` on receive and the
`u32 → i32` `try_into` in `add_ice` — the bound is explicit. -/

structure PeerConnectionOptions where
deriving DecidableEq

structure Config where
  peer_connection_options : Option PeerConnectionOptions
  protocol_version : Option String
deriving DecidableEq

structure Identify where
deriving DecidableEq

structure EndpointId where
  id : String
  protocol_version : Option String
deriving DecidableEq

structure EndpointIdConfirm where
  committed_id : String
deriving DecidableEq

structure StreamerIdChanged where
  new_id : String
deriving DecidableEq

structure ListStreamers where
deriving DecidableEq

structure StreamerList where
  ids : List String
deriving DecidableEq

structure Subscribe where
  streamer_id : String
deriving DecidableEq

structure Unsubscribe where
deriving DecidableEq

structure PlayerConnected where
  data_channel : Bool
  sfu : Bool
  player_id : String
deriving DecidableEq

structure PlayerDisconnected where
  player_id : String
deriving DecidableEq

structure Offer where
  sdp : String
  player_id : Option String
  sfu : Option Bool
deriving DecidableEq

structure Answer where
  sdp : String
  player_id : Option String
deriving DecidableEq

structure IceCandidateData where
  candidate : String
  sdp_mid : String
  sdp_m_line_index : Int
  username_fragment : Option String
deriving DecidableEq

structure IceCandidate where
  candidate : Option IceCandidateData
  player_id : Option String
deriving DecidableEq

structure DisconnectPlayer where
  player_id : String
  reason : Option String
deriving DecidableEq

structure Ping where
  time : Int
deriving DecidableEq

structure Pong where
  time : Int
deriving DecidableEq

structure StreamerDisconnected where
deriving DecidableEq

structure LayerPreference where
  spatial_layer : Int
  temporal_layer : Int
  player_id : String
deriving DecidableEq

structure DataChannelRequest where
deriving DecidableEq

structure PeerDataChannels where
  player_id : String
  send_stream_id : Int
  recv_stream_id : Int
deriving DecidableEq

structure PeerDataChannelsReady where
deriving DecidableEq

structure StreamerDataChannels where
  sfu_id : String
  send_stream_id : Int
  recv_stream_id : Int
deriving DecidableEq

structure StartStreaming where
deriving DecidableEq

structure StopStreaming where
deriving DecidableEq

structure PlayerCount where
  count : Int
deriving DecidableEq

structure Stats where
  data : String
deriving DecidableEq

/-- `protocol::Message`: all 27 serde-tagged variants of protocol.rs, in
declaration order.  A websocket text frame decodes to one of these or
fails serde decoding. -/
inductive PMessage
  | config (c : Config)
  | identify (i : Identify)
  | endpointId (e : EndpointId)
  | endpointIdConfirm (e : EndpointIdConfirm)
  | streamerIdChanged (s : StreamerIdChanged)
  | listStreamers (l : ListStreamers)
  | streamerList (s : StreamerList)
  | subscribe (s : Subscribe)
  | unsubscribe (u : Unsubscribe)
  | playerConnected (p : PlayerConnected)
  | playerDisconnected (p : PlayerDisconnected)
  | offer (o : Offer)
  | answer (a : Answer)
  | iceCandidate (i : IceCandidate)
  | disconnectPlayer (d : DisconnectPlayer)
  | ping (p : Ping)
  | pong (p : Pong)
  | streamerDisconnected (s : StreamerDisconnected)
  | layerPreference (l : LayerPreference)
  | dataChannelRequest (d : DataChannelRequest)
  | peerDataChannels (p : PeerDataChannels)
  | peerDataChannelsReady (p : PeerDataChannelsReady)
  | streamerDataChannels (s : StreamerDataChannels)
  | startStreaming (s : StartStreaming)
  | stopStreaming (s : StopStreaming)
  | playerCount (p : PlayerCount)
  | stats (s : Stats)
deriving DecidableEq

/-- The signaller's `State` struct (signaller/imp.rs).  Task handles and
the websocket sender are opaque runtime objects; they are modelled as
`Option Nat` — only their presence and identity matter. -/
structure SigState where
  websocket_sender : Option Nat
  connect_task_handle : Option Nat
  send_task_handle : Option Nat
  receive_task_handle : Option Nat
  producers : List String
  streamer_id : Option String
deriving DecidableEq

/-- The signaller object: its `State`, the recorded `medias` mid list,
and the `streamer-id` setting (`Settings::streamer_id`). -/
structure Signaller where
  state : SigState
  medias : List String
  streamer_id_setting : Option String
deriving DecidableEq

inductive SdpType
  | offer
  | answer
deriving DecidableEq

/-- A `WebRTCSessionDescription` as consumed by `send_sdp`: its type,
the `mid` attribute value of each media line in order (`none` when the
line has no `mid` attribute), and its serialized text. -/
structure SessionDescription where
  ty : SdpType
  medias : List (Option String)
  text : String
deriving DecidableEq

/-- GLib signals emitted by the signaller towards its caller. -/
inductive SigEvent
  | errorEvent (msg : String)
  | sessionRequested (session_id peer_id : String)
  | sessionEnded (session_id : String)
  | sessionDescription (session_id : String) (ty : SdpType) (sdp : String)
  | handleIce (session_id : String) (sdp_m_line_index : Nat) (sdp_mid : String)
      (candidate : String)
deriving DecidableEq

/-- One inbound item of the receive loop: a websocket text frame
(together with the result of `serde_json::from_str::<p::Message>` — `none`
for unparseable JSON or a `type` tag that is not one of protocol.rs's 27
serde tags), a non-text frame, a close frame, or a transport receive
error. -/
inductive WsIn
  | text (parsed : Option PMessage)
  | otherFrame
  | closeFrame (reason : Option String)
  | recvError (err : String)
deriving DecidableEq

inductive SigFlow
  | continueLoop
  | breakLoop
deriving DecidableEq

/-- Everything one `handle_message` call does: the updated signaller,
the emitted GLib events, the queued outbound messages, and the returned
`ControlFlow`. -/
structure HandleResult where
  signaller : Signaller
  events : List SigEvent
  sends : List PMessage
  flow : SigFlow
deriving DecidableEq

/-- `Signaller::identify`: reply with the configured streamer id (empty
string when unset) as an `endpointId` message. -/
def Signaller.identify (s : Signaller) : List PMessage :=
  [.endpointId ⟨s.streamer_id_setting.getD "", none⟩]

/-- `u32::try_from` on the inbound `sdp_m_line_index` (an `i32` in
protocol.rs, embedded as `Int`): fails exactly on values outside the u32
range — for i32 inputs, on the negative ones. -/
def u32_try_from (i : Int) : Option Nat :=
  if 0 ≤ i ∧ i < 4294967296 then some i.toNat else none

/-- `Signaller::handle_message` (signaller/imp.rs:270-413).  The SDP
parser `gst_sdp::SDPMessage::parse_buffer` is external; it is passed in
as `sdpParse`, with `none` marking a parse failure.  The seven handled
variants follow imp.rs's match arms; the remaining 20 recognized
variants fall to its `_ => warn` arm: no event, no send, `Continue`. -/
def Signaller.handle_message (sdpParse : String → Option Unit) (s : Signaller)
    (msg : WsIn) : HandleResult :=
  match msg with
  | .text none =>
    ⟨s, [.errorEvent "Unknown message from server"], [], .continueLoop⟩
  | .text (some m) =>
    match m with
    | .identify _ => ⟨s, [], s.identify, .continueLoop⟩
    | .endpointIdConfirm e =>
      ⟨{ s with state := { s.state with streamer_id := some e.committed_id } },
        [], [], .continueLoop⟩
    | .playerConnected pc =>
      ⟨s, [.sessionRequested pc.player_id pc.player_id], [], .continueLoop⟩
    | .playerDisconnected pd =>
      ⟨s, [.sessionEnded pd.player_id], [], .continueLoop⟩
    | .offer o =>
      match o.player_id with
      | some pid =>
        match sdpParse o.sdp with
        | some _ =>
          ⟨s, [.sessionDescription pid .offer o.sdp], [], .continueLoop⟩
        | none => ⟨s, [.errorEvent "Error parsing SDP"], [], .breakLoop⟩
      | none => ⟨s, [], [], .continueLoop⟩
    | .answer a =>
      match a.player_id with
      | some pid =>
        match sdpParse a.sdp with
        | some _ =>
          ⟨s, [.sessionDescription pid .answer a.sdp], [], .continueLoop⟩
        | none => ⟨s, [.errorEvent "Error parsing SDP"], [], .breakLoop⟩
      | none => ⟨s, [], [], .continueLoop⟩
    | .iceCandidate ic =>
      match ic.player_id, ic.candidate with
      | some pid, some cand =>
        match u32_try_from cand.sdp_m_line_index with
        | some idx =>
          ⟨s, [.handleIce pid idx cand.sdp_mid cand.candidate], [],
            .continueLoop⟩
        | none => ⟨s, [], [], .continueLoop⟩
      | _, _ => ⟨s, [], [], .continueLoop⟩
    | _ => ⟨s, [], [], .continueLoop⟩
  | .otherFrame => ⟨s, [], [], .continueLoop⟩
  | .closeFrame _ => ⟨s, [], [], .breakLoop⟩
  | .recvError e =>
    ⟨s, [.errorEvent ("Error receiving: " ++ e)], [], .breakLoop⟩

/-- `Signaller::send_sdp` (signaller/imp.rs:577-605): record each media
line's `mid` (empty string when absent) in order, then queue an `offer`
or `answer` message for the session. -/
def Signaller.send_sdp (s : Signaller) (session_id : String)
    (sdp : SessionDescription) : Signaller × List PMessage :=
  let medias := sdp.medias.map (fun v => v.getD "")
  let msg :=
    if sdp.ty = .offer then PMessage.offer ⟨sdp.text, some session_id, none⟩
    else PMessage.answer ⟨sdp.text, some session_id⟩
  ({ s with medias := medias }, [msg])

/-- `sdp_m_line_index.try_into()` in `add_ice`: a `u32 → i32` conversion
(the target field `IceCandidateData::sdp_m_line_index` is `i32` in
protocol.rs), which fails exactly for indices above `i32::MAX`. -/
def i32_try_from_u32 (n : Nat) : Option Int :=
  if n < 2147483648 then some (n : Int) else none

/-- `Signaller::add_ice` (signaller/imp.rs:607-646): look the media
line's `mid` up by index in the recorded list, falling back to the empty
string, and queue an `iceCandidate` message — unless the `u32 → i32`
conversion of the index fails, in which case it logs a warning and
returns without sending. -/
def Signaller.add_ice (s : Signaller) (session_id candidate : String)
    (sdp_m_line_index : Nat) (_sdp_mid : Option String) : List PMessage :=
  let sdp_mid := s.medias[sdp_m_line_index]?
  match i32_try_from_u32 sdp_m_line_index with
  | some idx =>
    [.iceCandidate ⟨some ⟨candidate, sdp_mid.getD "", idx, none⟩,
      some session_id⟩]
  | none => []

/-- C3: handling `endpointIdConfirm{committedId=s}` stores exactly `s`
as the streamer id, regardless of the previously stored or requested id,
and modifies nothing else: every other state field, the recorded medias
and the settings are untouched, no event is emitted, nothing is sent,
and the receive loop continues. -/
theorem endpointIdConfirm_sets_exactly_committed_id
    (p : String → Option Unit) (s : Signaller) (e : EndpointIdConfirm) :
    (Signaller.handle_message p s (.text (some (.endpointIdConfirm e)))) =
      ⟨{ s with state := { s.state with streamer_id := some e.committed_id } },
        [], [], .continueLoop⟩ ∧
    (Signaller.handle_message p s
        (.text (some (.endpointIdConfirm e)))).signaller.state.streamer_id =
      some e.committed_id ∧
    (Signaller.handle_message p s
        (.text (some (.endpointIdConfirm e)))).signaller.state.websocket_sender =
      s.state.websocket_sender ∧
    (Signaller.handle_message p s
        (.text (some (.endpointIdConfirm e)))).signaller.state.connect_task_handle =
      s.state.connect_task_handle ∧
    (Signaller.handle_message p s
        (.text (some (.endpointIdConfirm e)))).signaller.state.send_task_handle =
      s.state.send_task_handle ∧
    (Signaller.handle_message p s
        (.text (some (.endpointIdConfirm e)))).signaller.state.receive_task_handle =
      s.state.receive_task_handle ∧
    (Signaller.handle_message p s
        (.text (some (.endpointIdConfirm e)))).signaller.state.producers =
      s.state.producers ∧
    (Signaller.handle_message p s
        (.text (some (.endpointIdConfirm e)))).signaller.medias = s.medias ∧
    (Signaller.handle_message p s
        (.text (some (.endpointIdConfirm e)))).signaller.streamer_id_setting =
      s.streamer_id_setting := by
  exact ⟨rfl, rfl, rfl, rfl, rfl, rfl, rfl, rfl, rfl⟩

/-- C5: an inbound text frame whose JSON is unparseable or whose type
tag is not one of protocol.rs's 27 serde tags (both fail `serde`
decoding) makes `handle_message` emit an error event to the caller and
return `Continue`, leaving the signaller unchanged — the receive loop
keeps running.  By contrast a recognized-but-unhandled tag (e.g. `ping`
or `config`) parses fine and emits no error at all. -/
theorem malformed_frame_reports_error_and_continues
    (p : String → Option Unit) (s : Signaller) :
    (Signaller.handle_message p s (.text none)).events =
      [.errorEvent "Unknown message from server"] ∧
    (Signaller.handle_message p s (.text none)).flow = .continueLoop ∧
    (Signaller.handle_message p s (.text none)).signaller = s ∧
    (Signaller.handle_message p s (.text none)).sends = [] ∧
    (∀ pg : Ping,
      (Signaller.handle_message p s (.text (some (.ping pg)))).events = [] ∧
      (Signaller.handle_message p s (.text (some (.ping pg)))).flow =
        .continueLoop) ∧
    (∀ c : Config,
      (Signaller.handle_message p s (.text (some (.config c)))).events = [] ∧
      (Signaller.handle_message p s (.text (some (.config c)))).flow =
        .continueLoop) := by
  exact ⟨rfl, rfl, rfl, rfl, fun pg => ⟨rfl, rfl⟩, fun c => ⟨rfl, rfl⟩⟩

/-- C6: `handle_message` breaks the receive loop in exactly three cases:
a websocket close frame, a transport receive error, or a well-formed
`offer`/`answer` carrying a player id whose SDP payload fails to parse;
every other inbound item — unparseable JSON as well as each of the 20
recognized-but-unhandled protocol variants — continues the loop. -/
theorem handle_message_break_exactly
    (p : String → Option Unit) (s : Signaller) (msg : WsIn) :
    (Signaller.handle_message p s msg).flow = .breakLoop ↔
      ((∃ r, msg = .closeFrame r) ∨ (∃ e, msg = .recvError e) ∨
       (∃ o : Offer, msg = .text (some (.offer o)) ∧
         o.player_id.isSome = true ∧ p o.sdp = none) ∨
       (∃ a : Answer, msg = .text (some (.answer a)) ∧
         a.player_id.isSome = true ∧ p a.sdp = none)) := by
  cases msg with
  | text parsed =>
    cases parsed with
    | none => simp [Signaller.handle_message]
    | some m =>
      cases m with
      | offer o =>
        rcases ho : o.player_id with _ | pid
        · simp [Signaller.handle_message, ho]
        · rcases hp : p o.sdp with _ | u <;>
            simp [Signaller.handle_message, ho, hp]
      | answer a =>
        rcases ha : a.player_id with _ | pid
        · simp [Signaller.handle_message, ha]
        · rcases hp : p a.sdp with _ | u <;>
            simp [Signaller.handle_message, ha, hp]
      | iceCandidate ic =>
        rcases hpid : ic.player_id with _ | pid
        · simp [Signaller.handle_message, hpid]
        · rcases hc : ic.candidate with _ | cand
          · simp [Signaller.handle_message, hpid, hc]
          · rcases hu : u32_try_from cand.sdp_m_line_index with _ | idx <;>
              simp [Signaller.handle_message, hpid, hc, hu]
      | _ => simp [Signaller.handle_message]
  | otherFrame => simp [Signaller.handle_message]
  | closeFrame r => simp [Signaller.handle_message]
  | recvError e => simp [Signaller.handle_message]

/-- C4 counterexample: with the recorded mid list `["0"]`, calling
`add_ice` with the out-of-range index `2^31 = 2147483648` sends no
`IceCandidate` message at all — the `u32 → i32` `try_into` of the index
fails (the protocol field is `i32`), and `add_ice` warns and returns —
whereas the claim demands a message with `sdp_mid = ""` for every index
at or beyond the recorded list's length. -/
theorem add_ice_overflow_counterexample :
    Signaller.add_ice ⟨⟨none, none, none, none, [], none⟩, ["0"], none⟩
        "p1" "cand" 2147483648 none = [] ∧
    (["0"] : List String).length ≤ 2147483648 ∧
    Signaller.add_ice ⟨⟨none, none, none, none, [], none⟩, ["0"], none⟩
        "p1" "cand" 2147483648 none ≠
      [.iceCandidate ⟨some ⟨"cand", "", (2147483648 : Int), none⟩,
        some "p1"⟩] := by
  refine ⟨rfl, by decide, ?_⟩
  intro h
  simp [Signaller.add_ice, i32_try_from_u32] at h

/-- C4 (amended): after `send_sdp` has recorded the (mid-or-empty) value
of every media line in order, `add_ice` with line index `i` queues
exactly one `IceCandidate` message whose `sdp_mid` is the recorded value
at `i` when `i` is in range and the empty string when `i` is at or past
the end of the recorded list, provided `i` fits the wire field's `i32`
(`i < 2^31`); for `i ≥ 2^31` the `u32 → i32` conversion fails and
`add_ice` logs a warning and returns without sending.  No index raises
an error. -/
theorem send_sdp_then_add_ice_mid_lookup (s : Signaller)
    (sid cand : String) (desc : SessionDescription) (m : Option String) :
    (Signaller.send_sdp s sid desc).1.medias =
      desc.medias.map (fun v => v.getD "") ∧
    (∀ i, (h : i < (Signaller.send_sdp s sid desc).1.medias.length) →
      i < 2147483648 →
      Signaller.add_ice (Signaller.send_sdp s sid desc).1 sid cand i m =
        [.iceCandidate
          ⟨some ⟨cand, (Signaller.send_sdp s sid desc).1.medias.get ⟨i, h⟩,
            (i : Int), none⟩, some sid⟩]) ∧
    (∀ i, (Signaller.send_sdp s sid desc).1.medias.length ≤ i →
      i < 2147483648 →
      Signaller.add_ice (Signaller.send_sdp s sid desc).1 sid cand i m =
        [.iceCandidate ⟨some ⟨cand, "", (i : Int), none⟩, some sid⟩]) ∧
    (∀ i, 2147483648 ≤ i →
      Signaller.add_ice (Signaller.send_sdp s sid desc).1 sid cand i m =
        []) := by
  refine ⟨rfl, ?_, ?_, ?_⟩
  · intro i h hi
    simp [Signaller.add_ice, i32_try_from_u32, hi,
      List.getElem?_eq_getElem h, List.get_eq_getElem]
  · intro i h hi
    simp [Signaller.add_ice, i32_try_from_u32, hi, List.getElem?_eq_none h]
  · intro i hi
    simp [Signaller.add_ice, i32_try_from_u32, Nat.not_lt.mpr hi]

/-- Witness for C4: a description with two media lines, one with
`mid="0"` and one without, looked up at an in-range index, at an
out-of-range index, and at an index past `i32::MAX`. -/
theorem send_sdp_then_add_ice_mid_lookup_witness :
    Signaller.add_ice
        (Signaller.send_sdp ⟨⟨none, none, none, none, [], none⟩, [], none⟩
          "p1" ⟨.offer, [some "0", none], "sdptext"⟩).1 "p1" "cand" 0 none =
      [.iceCandidate ⟨some ⟨"cand", "0", 0, none⟩, some "p1"⟩] ∧
    Signaller.add_ice
        (Signaller.send_sdp ⟨⟨none, none, none, none, [], none⟩, [], none⟩
          "p1" ⟨.offer, [some "0", none], "sdptext"⟩).1 "p1" "cand" 5 none =
      [.iceCandidate ⟨some ⟨"cand", "", 5, none⟩, some "p1"⟩] ∧
    Signaller.add_ice
        (Signaller.send_sdp ⟨⟨none, none, none, none, [], none⟩, [], none⟩
          "p1" ⟨.offer, [some "0", none], "sdptext"⟩).1 "p1" "cand"
        2147483648 none = [] := by
  refine ⟨?_, ?_, ?_⟩
  · exact (send_sdp_then_add_ice_mid_lookup
      ⟨⟨none, none, none, none, [], none⟩, [], none⟩ "p1" "cand"
      ⟨.offer, [some "0", none], "sdptext"⟩ none).2.1 0 (by decide) (by decide)
  · exact (send_sdp_then_add_ice_mid_lookup
      ⟨⟨none, none, none, none, [], none⟩, [], none⟩ "p1" "cand"
      ⟨.offer, [some "0", none], "sdptext"⟩ none).2.2.1 5 (by decide)
      (by decide)
  · exact (send_sdp_then_add_ice_mid_lookup
      ⟨⟨none, none, none, none, [], none⟩, [], none⟩ "p1" "cand"
      ⟨.offer, [some "0", none], "sdptext"⟩ none).2.2.2 2147483648 (by decide)

/-! ## Signaller teardown (`Signaller::stop`, signaller/imp.rs:541-575)

`stop` is straight-line blocking code (`RUNTIME.block_on`); its
behaviour is embedded as the ordered list of teardown actions it
performs before returning, together with the state it leaves behind. -/

inductive StopAction
  | abortConnect
  | awaitConnect
  | closeChannel
  | awaitSend
  | abortReceive
  | awaitReceive
deriving DecidableEq

/-- `Signaller::stop`: abort and await the connect task if present; take
the send and receive task handles; if a websocket sender is present,
close the outbound channel, await (join) the send task, then abort and
await the receive task; finally clear the producers set.  Returns the
resulting signaller and the actions performed, in order, before
returning. -/
def Signaller.stop (s : Signaller) : Signaller × List StopAction :=
  let st := s.state
  let c :=
    match st.connect_task_handle with
    | some _ => ([StopAction.abortConnect, StopAction.awaitConnect],
        { st with connect_task_handle := none })
    | none => ([], st)
  let st1 := c.2
  let send_h := st1.send_task_handle
  let receive_h := st1.receive_task_handle
  let st2 := { st1 with send_task_handle := none, receive_task_handle := none }
  let d :=
    match st2.websocket_sender with
    | some _ =>
      ([StopAction.closeChannel] ++
        (match send_h with
         | some _ => [StopAction.awaitSend]
         | none => []) ++
        (match receive_h with
         | some _ => [StopAction.abortReceive, StopAction.awaitReceive]
         | none => []),
       { st2 with websocket_sender := none })
    | none => ([], st2)
  let st3 := { d.2 with producers := [] }
  ({ s with state := st3 }, c.1 ++ d.1)

/-- C10: `stop` is an idempotent blocking teardown: before it returns it
has aborted and awaited the connect task when one was running, closed
the outbound channel and awaited the send task (even with a send in
flight), and aborted and awaited the receive task, so no spawned task
handle survives it; and a second `stop` performs no action and changes
nothing. -/
theorem stop_teardown (s : Signaller) :
    (s.state.connect_task_handle.isSome = true →
      StopAction.awaitConnect ∈ (Signaller.stop s).2) ∧
    (s.state.websocket_sender.isSome = true →
      s.state.send_task_handle.isSome = true →
      StopAction.awaitSend ∈ (Signaller.stop s).2) ∧
    (s.state.websocket_sender.isSome = true →
      s.state.receive_task_handle.isSome = true →
      StopAction.awaitReceive ∈ (Signaller.stop s).2) ∧
    ((Signaller.stop s).1.state.connect_task_handle = none ∧
      (Signaller.stop s).1.state.send_task_handle = none ∧
      (Signaller.stop s).1.state.receive_task_handle = none ∧
      (Signaller.stop s).1.state.websocket_sender = none ∧
      (Signaller.stop s).1.state.producers = []) ∧
    Signaller.stop (Signaller.stop s).1 = ((Signaller.stop s).1, []) := by
  obtain ⟨⟨ws, ct, st, rt, pr, sid⟩, med, setting⟩ := s
  cases ws <;> cases ct <;> cases st <;> cases rt <;>
    simp [Signaller.stop]

/-- Witness for C10: a signaller with all three tasks running and a live
sender is fully torn down, every task is awaited, and a second `stop` is
a no-op. -/
theorem stop_teardown_witness :
    (StopAction.awaitConnect ∈
      (Signaller.stop ⟨⟨some 1, some 2, some 3, some 4, ["p"], none⟩, [],
        none⟩).2) ∧
    (StopAction.awaitSend ∈
      (Signaller.stop ⟨⟨some 1, some 2, some 3, some 4, ["p"], none⟩, [],
        none⟩).2) ∧
    (StopAction.awaitReceive ∈
      (Signaller.stop ⟨⟨some 1, some 2, some 3, some 4, ["p"], none⟩, [],
        none⟩).2) ∧
    Signaller.stop
        (Signaller.stop ⟨⟨some 1, some 2, some 3, some 4, ["p"], none⟩, [],
          none⟩).1 =
      ((Signaller.stop ⟨⟨some 1, some 2, some 3, some 4, ["p"], none⟩, [],
        none⟩).1, []) := by
  obtain ⟨h1, h2, h3, _, h5⟩ :=
    stop_teardown ⟨⟨some 1, some 2, some 3, some 4, ["p"], none⟩, [], none⟩
  exact ⟨h1 (by decide), h2 (by decide) (by decide), h3 (by decide) (by decide),
    h5⟩

/-! ## Frame capture (src/capture/mod.rs, src/capture/driver.rs) -/

/-- `RenderDevice::align_copy_bytes_per_row` (bevy): round a row byte
count up to the next multiple of `wgpu::COPY_BYTES_PER_ROW_ALIGNMENT`
(256). -/
def align_copy_bytes_per_row (row_bytes : Nat) : Nat :=
  row_bytes + (256 - row_bytes % 256) % 256

/-- The size of the staging buffer allocated in `Capture::new`
(capture/mod.rs:55-63): `padded_bytes_per_row` is
`align_copy_bytes_per_row(width) * 4` — the alignment is applied to the
width in pixels and the result multiplied by 4 — and the buffer size is
`padded_bytes_per_row * height`. -/
def capture_buffer_size (width height : Nat) : Nat :=
  (align_copy_bytes_per_row width * 4) * height

/-- C7 counterexample: at width 100, height 1, the allocated staging
buffer has 1024 bytes, not the `align_copy_bytes_per_row(width*4) *
height = 512` bytes the claim states. -/
theorem capture_buffer_size_counterexample :
    capture_buffer_size 100 1 = 1024 ∧
    align_copy_bytes_per_row (100 * 4) * 1 = 512 ∧
    capture_buffer_size 100 1 ≠ align_copy_bytes_per_row (100 * 4) * 1 := by
  decide

/-- C7 (amended): the staging buffer created in `Capture::new` has size
`align_copy_bytes_per_row(width) * 4 * height` bytes — the copy-row
alignment is applied to the pixel width before the ×4 bytes-per-pixel
factor — which is always at least the
`align_copy_bytes_per_row(width*4) * height` bytes the spec names. -/
theorem capture_buffer_size_eq (w h : Nat) :
    capture_buffer_size w h = (align_copy_bytes_per_row w * 4) * h ∧
    align_copy_bytes_per_row (w * 4) * h ≤ capture_buffer_size w h := by
  refine ⟨rfl, Nat.mul_le_mul_right h ?_⟩
  unfold align_copy_bytes_per_row
  omega

/-- One `Capture` component as read by the render-graph node: the
pre-created staging buffer, the atomic `enabled` flag, and the handles
it owns (source image, Vulkan device memory and its size, encoder).
Handles are opaque and modelled as `Nat`. -/
structure Capture where
  buffer : Nat
  enabled : Bool
  src_image : Nat
  memory : Nat
  memory_size : Nat
  encoder : Nat
deriving DecidableEq

/-- What `CaptureDriver::run` pushes to a capture's encoder appsrc for
one processed target: a gst buffer wrapping the exported device memory,
with a `VideoMeta` carrying the image dimensions and the padded row
stride `align_copy_bytes_per_row(width * 4)` (RGBA has 1×1 blocks of 4
bytes). -/
structure PushedBuffer where
  encoder : Nat
  memory : Nat
  memory_size : Nat
  width : Nat
  height : Nat
  stride : Nat
deriving DecidableEq

/-- The push `CaptureDriver::run` performs for one enabled capture,
given the render world's gpu-image lookup (image handle ↦ size). -/
def pushFor (gpuImages : Nat → Nat × Nat) (c : Capture) : PushedBuffer :=
  let wh := gpuImages c.src_image
  { encoder := c.encoder
    memory := c.memory
    memory_size := c.memory_size
    width := wh.1
    height := wh.2
    stride := align_copy_bytes_per_row (wh.1 * 4) }

/-- The loop of `CaptureDriver::run` (capture/driver.rs:60-175) over the
extracted captures: a target whose `enabled` flag reads false is skipped
with `continue`; an enabled one has a buffer pushed to its encoder.  The
loop mutates no capture, so the capture list is returned unchanged
alongside the pushes. -/
def captureDriverRun (gpuImages : Nat → Nat × Nat) :
    List Capture → List PushedBuffer × List Capture
  | [] => ([], [])
  | c :: rest =>
    let r := captureDriverRun gpuImages rest
    if c.enabled then (pushFor gpuImages c :: r.1, c :: r.2)
    else (r.1, c :: r.2)

/-- C8: in one run of the render-graph node, the pushed buffers are
exactly one per capture whose `enabled` flag reads true, in order — a
disabled target gets no copy and no push — and every capture (its
staging buffer, device memory and encoder handles included) is left
unchanged by the run. -/
theorem capture_driver_skips_disabled (g : Nat → Nat × Nat)
    (cs : List Capture) :
    (captureDriverRun g cs).1 =
      (cs.filter (fun c => c.enabled)).map (pushFor g) ∧
    (captureDriverRun g cs).2 = cs := by
  induction cs with
  | nil => exact ⟨rfl, rfl⟩
  | cons c rest ih =>
    cases hc : c.enabled <;>
      simp [captureDriverRun, hc, ih.1, ih.2, List.filter_cons]

/-! ## Staging-buffer pool

Modelled from the spec: the triple-buffered capture worker and its pool
(`spawn_worker`, `receive_image_from_buffer`, `release_mapped_buffers`,
referenced from src/lib.rs) are not among the sources — only their
callers are.  Per §3 and §4.1 of the spec: a `CapturePool` is an ordered
sequence of N staging buffers, each with an `in_use` flag, plus a
last-used cursor; `acquire_free` scans the slots starting just after the
last-used index (round-robin starting point, first free slot found
wins), marks the first slot whose `in_use` is false as `in_use=true` and
returns its index, or returns `none` when all N slots are busy;
`release i` sets slot `i`'s flag back to false. -/

structure CapturePool where
  slots : List Bool
  last_used : Nat
deriving DecidableEq

def acquire_free (p : CapturePool) : Option Nat × CapturePool :=
  match ((List.range p.slots.length).map
      (fun k => (p.last_used + 1 + k) % p.slots.length)).find?
      (fun i => !(p.slots.getD i true)) with
  | some i => (some i, ⟨p.slots.set i true, i⟩)
  | none => (none, p)

def CapturePool.release (p : CapturePool) (i : Nat) : CapturePool :=
  ⟨p.slots.set i false, p.last_used⟩

inductive PoolOp
  | acquireOp
  | releaseOp (i : Nat)
deriving DecidableEq

def poolStep (p : CapturePool) : PoolOp → CapturePool
  | .acquireOp => (acquire_free p).2
  | .releaseOp i => p.release i

def poolRun (p : CapturePool) : List PoolOp → CapturePool
  | [] => p
  | op :: ops => poolRun (poolStep p op) ops

/-- C9: for every pool and every sequence of acquire/release operations,
`acquire_free` never returns the index of a slot whose `in_use` flag is
currently true; the number of concurrently in-use slots never exceeds
the pool size N; and a slot's flag flips false→true only as the slot
just claimed by an `acquire_free`, and true→false only by an explicit
`release` of that slot. -/
theorem capture_pool_invariants :
    (∀ p i, (acquire_free p).1 = some i → p.slots.getD i true = false) ∧
    (∀ p ops, (poolRun p ops).slots.length = p.slots.length ∧
      (poolRun p ops).slots.count true ≤ p.slots.length) ∧
    (∀ p op i,
      (poolStep p op).slots.getD i true ≠ p.slots.getD i true →
      (op = .acquireOp ∧ (acquire_free p).1 = some i ∧
        (poolStep p op).slots.getD i true = true) ∨
      (op = .releaseOp i ∧ (poolStep p op).slots.getD i true = false)) := by
  refine ⟨?_, ?_, ?_⟩
  · intro p i h
    unfold acquire_free at h
    split at h
    · rename_i j heq
      simp only [Option.some.injEq] at h
      subst h
      have hp := List.find?_some heq
      simpa using hp
    · simp at h
  · intro p ops
    induction ops generalizing p with
    | nil => exact ⟨rfl, List.count_le_length true p.slots⟩
    | cons op ops ih =>
      have hlen : (poolStep p op).slots.length = p.slots.length := by
        cases op with
        | acquireOp =>
          simp only [poolStep]
          unfold acquire_free
          split <;> simp
        | releaseOp i => simp [poolStep, CapturePool.release]
      obtain ⟨ih1, ih2⟩ := ih (poolStep p op)
      constructor
      · simp only [poolRun]
        rw [ih1, hlen]
      · simp only [poolRun]
        exact le_trans ih2 (le_of_eq hlen)
  · intro p op i hne
    cases op with
    | acquireOp =>
      rcases hf : ((List.range p.slots.length).map
          (fun k => (p.last_used + 1 + k) % p.slots.length)).find?
          (fun i => !(p.slots.getD i true)) with _ | j
      · exfalso
        apply hne
        simp only [poolStep]
        unfold acquire_free
        rw [hf]
      · by_cases hji : j = i
        · subst hji
          rcases Nat.lt_or_ge j p.slots.length with hlt | hge
          · left
            refine ⟨rfl, ?_, ?_⟩
            · unfold acquire_free
              rw [hf]
            · simp only [poolStep]
              unfold acquire_free
              rw [hf]
              simp [List.getD, List.getElem?_set_eq_of_lt true hlt]
          · exfalso
            apply hne
            simp only [poolStep]
            unfold acquire_free
            rw [hf]
            simp [List.set_eq_of_length_le hge]
        · exfalso
          apply hne
          simp only [poolStep]
          unfold acquire_free
          rw [hf]
          simp [List.getD, List.getElem?_set_ne hji]
    | releaseOp j =>
      by_cases hji : j = i
      · subst hji
        rcases Nat.lt_or_ge j p.slots.length with hlt | hge
        · right
          refine ⟨rfl, ?_⟩
          simp [poolStep, CapturePool.release, List.getD,
            List.getElem?_set_eq_of_lt false hlt]
        · exact absurd
            (by simp [poolStep, CapturePool.release,
              List.set_eq_of_length_le hge]) hne
      · exact absurd
          (by simp [poolStep, CapturePool.release, List.getD,
            List.getElem?_set_ne hji]) hne

/-- Witness for C9: the three-slot pool of the spec's scenario, with
slot 0 busy and the cursor on 0: `acquire_free` claims slot 1 (not the
busy slot 0), and flipping a flag is always attributable to the
operation that did it. -/
theorem capture_pool_invariants_witness :
    (acquire_free ⟨[true, false, false], 0⟩).1 = some 1 ∧
    (⟨[true, false, false], 0⟩ : CapturePool).slots.getD 1 true = false ∧
    (poolRun ⟨[true, false, false], 0⟩ [.acquireOp, .releaseOp 0]).slots.count
        true ≤ 3 ∧
    ((poolStep ⟨[true, false, false], 0⟩ .acquireOp).slots.getD 1 true = true) := by
  obtain ⟨h1, h2, h3⟩ := capture_pool_invariants
  refine ⟨by decide, h1 ⟨[true, false, false], 0⟩ 1 (by decide), ?_, ?_⟩
  · exact (h2 ⟨[true, false, false], 0⟩ [.acquireOp, .releaseOp 0]).2
  · rcases h3 ⟨[true, false, false], 0⟩ .acquireOp 1 (by decide) with
      ⟨_, _, hq⟩ | ⟨hq, _⟩
    · exact hq
    · exact absurd hq (by decide)
